import Mathlib

set_option maxHeartbeats 1000000

/-!
Shallow embedding of the two MuPDF adapter files of the repository:
`mupdf_wrapper/mupdf_wrapper.c` (nine wrapped operations) and
`src/wrapper/mupdf.c` (four wrapped operations).  Each C file consists of a
single `WRAP` code-generation macro and a list of instantiations.  The
underlying library (MuPDF's fitz) is external to the repository and is
modelled abstractly: every library call is a function from the call's
arguments and an abstract library state to an `Except`-style outcome
(normal result, or a signalled failure carrying the error detail) together
with the successor state.
-/

/-- Error detail carried by the library's failure-propagation mechanism
(the message and category that `fz_caught_message` / `fz_caught` would
report inside the `fz_catch` block). -/
structure FzError where
  message : String
  category : Nat
  deriving DecidableEq, Repr

/-- Outcome of one underlying library call: a normal result, or a
signalled failure carrying its error detail. -/
abbrev FzResult (α : Type) := Except FzError α

/-- Opaque library object behind a `fz_context*` execution-context handle. -/
structure FzContext where
  id : Nat
  deriving DecidableEq, Repr

/-- Opaque library object behind a `fz_document*` handle. -/
structure FzDocument where
  id : Nat
  deriving DecidableEq, Repr

/-- Opaque library object behind a `fz_page*` handle. -/
structure FzPage where
  id : Nat
  deriving DecidableEq, Repr

/-- Opaque library object behind a `fz_outline*` handle. -/
structure FzOutline where
  id : Nat
  deriving DecidableEq, Repr

/-- Opaque library object behind a `fz_link*` handle. -/
structure FzLink where
  id : Nat
  deriving DecidableEq, Repr

/-- Opaque library object behind a `fz_pixmap*` handle. -/
structure FzPixmap where
  id : Nat
  deriving DecidableEq, Repr

/-- Opaque library object behind a `fz_stext_page*` handle. -/
structure FzStextPage where
  id : Nat
  deriving DecidableEq, Repr

/-- Opaque library object behind a `fz_stream*` handle. -/
structure FzStream where
  id : Nat
  deriving DecidableEq, Repr

/-- Opaque library object behind a `fz_colorspace*` handle. -/
structure FzColorspace where
  id : Nat
  deriving DecidableEq, Repr

/-- Opaque library object behind a `fz_stext_options*` handle. -/
structure FzStextOptions where
  id : Nat
  deriving DecidableEq, Repr

/-- The `fz_location` value struct (chapter and page), passed by value. -/
structure FzLocation where
  chapter : Int
  page : Int
  deriving DecidableEq, Repr

/-- The `fz_matrix` value struct, opaque to the adapter layer (it is only
forwarded, never inspected). -/
structure FzMatrix where
  id : Nat
  deriving DecidableEq, Repr

/-- A nullable `fz_document*` pointer: `none` is NULL. -/
abbrev DocHandle := Option FzDocument

/-- A nullable `fz_page*` pointer: `none` is NULL. -/
abbrev PageHandle := Option FzPage

/-- A nullable `fz_outline*` pointer: `none` is NULL. -/
abbrev OutlineHandle := Option FzOutline

/-- A nullable `fz_link*` pointer: `none` is NULL. -/
abbrev LinkHandle := Option FzLink

/-- A nullable `fz_pixmap*` pointer: `none` is NULL. -/
abbrev PixmapHandle := Option FzPixmap

/-- A nullable `fz_stext_page*` pointer: `none` is NULL. -/
abbrev StextPageHandle := Option FzStextPage

/-- A nullable `fz_stream*` pointer: `none` is NULL. -/
abbrev StreamHandle := Option FzStream

/-- A nullable `fz_colorspace*` pointer: `none` is NULL. -/
abbrev ColorspaceHandle := Option FzColorspace

/-- A nullable `fz_stext_options*` pointer: `none` is NULL. -/
abbrev StextOptionsHandle := Option FzStextOptions

/-- Abstract model of the underlying MuPDF library calls used by the
wrappers.  `σ` is the library's hidden state (allocations, I/O, the open
documents); every call maps its arguments and the current state to an
outcome and a successor state.  The library is external to the repository,
so its behaviour is left fully abstract here. -/
structure MuPdfLib (σ : Type) where
  fz_open_document : FzContext → String → σ → FzResult DocHandle × σ
  fz_open_document_with_stream :
      FzContext → String → StreamHandle → σ → FzResult DocHandle × σ
  fz_load_page : FzContext → DocHandle → Int → σ → FzResult PageHandle × σ
  fz_load_outline : FzContext → DocHandle → σ → FzResult OutlineHandle × σ
  fz_load_links : FzContext → PageHandle → σ → FzResult LinkHandle × σ
  fz_count_pages : FzContext → DocHandle → σ → FzResult Int × σ
  fz_page_number_from_location :
      FzContext → DocHandle → FzLocation → σ → FzResult Int × σ
  fz_new_pixmap_from_page :
      FzContext → PageHandle → FzMatrix → ColorspaceHandle → Int → σ →
      FzResult PixmapHandle × σ
  fz_new_stext_page_from_page :
      FzContext → PageHandle → StextOptionsHandle → σ →
      FzResult StextPageHandle × σ

/-- Semantics of the body generated by the `WRAP` macro
(`mupdf_wrapper/mupdf_wrapper.c`, lines 3-9): run the underlying call in
the guarded region (`fz_try`); on normal completion return its result; on
a signalled failure (`fz_catch`) return the operation's `failure_val`
sentinel instead.  The successor state is whatever state the single
underlying call left behind, on either path. -/
def wrap {σ α : Type} (failure_val : α) (call : σ → FzResult α × σ)
    (s : σ) : α × σ :=
  match call s with
  | (Except.ok v, s') => (v, s')
  | (Except.error _, s') => (failure_val, s')

/-- Assignment to the local `ret` variable of the macro body: writing a
value makes `ret` defined regardless of its previous contents. -/
def assignRet {α : Type} (_old : Option α) (v : α) : Option α := some v

/-- Fine-grained rendering of the same macro body that tracks whether the
local variable `ret` has been assigned before the single `return ret`
statement: `ret` starts out declared but uninitialized (`none`), the
guarded path assigns the call's result, and the catch path assigns the
sentinel. -/
def wrapRet {σ α : Type} (failure_val : α) (call : σ → FzResult α × σ)
    (s : σ) : Option α × σ :=
  let ret : Option α := none
  match call s with
  | (Except.ok v, s') => (assignRet ret v, s')
  | (Except.error _, s') => (assignRet ret failure_val, s')

/-- `WRAP(open_document, fz_document*, NULL, fz_open_document(ctx, path), char *path)`
(`mupdf_wrapper/mupdf_wrapper.c`, line 11). -/
def mp_open_document {σ : Type} (lib : MuPdfLib σ) (ctx : FzContext)
    (path : String) : σ → DocHandle × σ :=
  wrap none (lib.fz_open_document ctx path)

/-- `WRAP(open_document_with_stream, fz_document*, NULL, fz_open_document_with_stream(ctx, kind, stream), const char *kind, fz_stream *stream)`
(`mupdf_wrapper/mupdf_wrapper.c`, line 12). -/
def mp_open_document_with_stream {σ : Type} (lib : MuPdfLib σ)
    (ctx : FzContext) (kind : String) (stream : StreamHandle) :
    σ → DocHandle × σ :=
  wrap none (lib.fz_open_document_with_stream ctx kind stream)

/-- `WRAP(load_page, fz_page*, NULL, fz_load_page(ctx, doc, pageno), fz_document *doc, int pageno)`
(`mupdf_wrapper/mupdf_wrapper.c`, line 13). -/
def mp_load_page {σ : Type} (lib : MuPdfLib σ) (ctx : FzContext)
    (doc : DocHandle) (pageno : Int) : σ → PageHandle × σ :=
  wrap none (lib.fz_load_page ctx doc pageno)

/-- `WRAP(load_outline, fz_outline*, NULL, fz_load_outline(ctx, doc), fz_document *doc)`
(`mupdf_wrapper/mupdf_wrapper.c`, line 14). -/
def mp_load_outline {σ : Type} (lib : MuPdfLib σ) (ctx : FzContext)
    (doc : DocHandle) : σ → OutlineHandle × σ :=
  wrap none (lib.fz_load_outline ctx doc)

/-- `WRAP(load_links, fz_link*, NULL, fz_load_links(ctx, page), fz_page *page)`
(`mupdf_wrapper/mupdf_wrapper.c`, line 15). -/
def mp_load_links {σ : Type} (lib : MuPdfLib σ) (ctx : FzContext)
    (page : PageHandle) : σ → LinkHandle × σ :=
  wrap none (lib.fz_load_links ctx page)

/-- `WRAP(count_pages, int, -1, fz_count_pages(ctx, doc), fz_document *doc)`
(`mupdf_wrapper/mupdf_wrapper.c`, line 16). -/
def mp_count_pages {σ : Type} (lib : MuPdfLib σ) (ctx : FzContext)
    (doc : DocHandle) : σ → Int × σ :=
  wrap (-1) (lib.fz_count_pages ctx doc)

/-- `WRAP(page_number_from_location, int, -1, fz_page_number_from_location(ctx, doc, loc), fz_document *doc, fz_location loc)`
(`mupdf_wrapper/mupdf_wrapper.c`, line 17). -/
def mp_page_number_from_location {σ : Type} (lib : MuPdfLib σ)
    (ctx : FzContext) (doc : DocHandle) (loc : FzLocation) :
    σ → Int × σ :=
  wrap (-1) (lib.fz_page_number_from_location ctx doc loc)

/-- `WRAP(new_pixmap_from_page, fz_pixmap*, NULL, fz_new_pixmap_from_page(ctx, page, mat, cs, alpha), fz_page *page, fz_matrix mat, fz_colorspace *cs, int alpha)`
(`mupdf_wrapper/mupdf_wrapper.c`, line 18). -/
def mp_new_pixmap_from_page {σ : Type} (lib : MuPdfLib σ) (ctx : FzContext)
    (page : PageHandle) (mat : FzMatrix) (cs : ColorspaceHandle)
    (alpha : Int) : σ → PixmapHandle × σ :=
  wrap none (lib.fz_new_pixmap_from_page ctx page mat cs alpha)

/-- `WRAP(new_stext_page_from_page, fz_stext_page*, NULL, fz_new_stext_page_from_page(ctx, page, options), fz_page *page, fz_stext_options *options)`
(`mupdf_wrapper/mupdf_wrapper.c`, line 19). -/
def mp_new_stext_page_from_page {σ : Type} (lib : MuPdfLib σ)
    (ctx : FzContext) (page : PageHandle) (options : StextOptionsHandle) :
    σ → StextPageHandle × σ :=
  wrap none (lib.fz_new_stext_page_from_page ctx page options)

namespace Nested

/-- The `WRAP` macro of the nested file (`src/wrapper/mupdf.c`, lines 3-9),
which is textually identical to the one in `mupdf_wrapper/mupdf_wrapper.c`. -/
def wrap {σ α : Type} (failure_val : α) (call : σ → FzResult α × σ)
    (s : σ) : α × σ :=
  match call s with
  | (Except.ok v, s') => (v, s')
  | (Except.error _, s') => (failure_val, s')

/-- `WRAP(open_document, fz_document*, NULL, fz_open_document(ctx, path), char *path)`
(`src/wrapper/mupdf.c`, line 11). -/
def mp_open_document {σ : Type} (lib : MuPdfLib σ) (ctx : FzContext)
    (path : String) : σ → DocHandle × σ :=
  Nested.wrap none (lib.fz_open_document ctx path)

/-- `WRAP(count_pages, int, -1, fz_count_pages(ctx, doc), fz_document *doc)`
(`src/wrapper/mupdf.c`, line 12). -/
def mp_count_pages {σ : Type} (lib : MuPdfLib σ) (ctx : FzContext)
    (doc : DocHandle) : σ → Int × σ :=
  Nested.wrap (-1) (lib.fz_count_pages ctx doc)

/-- `WRAP(load_outline, fz_outline*, NULL, fz_load_outline(ctx, doc), fz_document *doc)`
(`src/wrapper/mupdf.c`, line 13). -/
def mp_load_outline {σ : Type} (lib : MuPdfLib σ) (ctx : FzContext)
    (doc : DocHandle) : σ → OutlineHandle × σ :=
  Nested.wrap none (lib.fz_load_outline ctx doc)

/-- `WRAP(load_page, fz_page*, NULL, fz_load_page(ctx, doc, pageno), fz_document *doc, int pageno)`
(`src/wrapper/mupdf.c`, line 14). -/
def mp_load_page {σ : Type} (lib : MuPdfLib σ) (ctx : FzContext)
    (doc : DocHandle) (pageno : Int) : σ → PageHandle × σ :=
  Nested.wrap none (lib.fz_load_page ctx doc pageno)

end Nested

/-- Return kind of a wrapped operation: an opaque handle (a pointer type)
or a C `int`. -/
inductive RetKind where
  | handle
  | int
  deriving DecidableEq, Repr

/-- The statically declared failure sentinel of a wrapped operation:
`NULL` for handle-returning operations, `-1` for int-returning ones. -/
inductive Sentinel where
  | null
  | negOne
  deriving DecidableEq, Repr

/-- One instantiation of the `WRAP` macro, as written in the source: the
macro's `name` argument, the return kind of `ret_type`, the `failure_val`
sentinel, the name of the underlying call, the argument expressions of the
call, and the extra parameters (type, name) that follow the leading
`fz_context *ctx` parameter. -/
structure OpDecl where
  base : String
  ret : RetKind
  sentinel : Sentinel
  callee : String
  calleeArgs : List String
  params : List (String × String)
  deriving DecidableEq, Repr

/-- The declarative instantiation list of `mupdf_wrapper/mupdf_wrapper.c`
(lines 11-19), transcribed field by field from the nine `WRAP` lines. -/
def mupdfWrapperOps : List OpDecl :=
  [ { base := "open_document", ret := RetKind.handle,
      sentinel := Sentinel.null, callee := "fz_open_document",
      calleeArgs := ["ctx", "path"],
      params := [("char *", "path")] },
    { base := "open_document_with_stream", ret := RetKind.handle,
      sentinel := Sentinel.null, callee := "fz_open_document_with_stream",
      calleeArgs := ["ctx", "kind", "stream"],
      params := [("const char *", "kind"), ("fz_stream *", "stream")] },
    { base := "load_page", ret := RetKind.handle,
      sentinel := Sentinel.null, callee := "fz_load_page",
      calleeArgs := ["ctx", "doc", "pageno"],
      params := [("fz_document *", "doc"), ("int", "pageno")] },
    { base := "load_outline", ret := RetKind.handle,
      sentinel := Sentinel.null, callee := "fz_load_outline",
      calleeArgs := ["ctx", "doc"],
      params := [("fz_document *", "doc")] },
    { base := "load_links", ret := RetKind.handle,
      sentinel := Sentinel.null, callee := "fz_load_links",
      calleeArgs := ["ctx", "page"],
      params := [("fz_page *", "page")] },
    { base := "count_pages", ret := RetKind.int,
      sentinel := Sentinel.negOne, callee := "fz_count_pages",
      calleeArgs := ["ctx", "doc"],
      params := [("fz_document *", "doc")] },
    { base := "page_number_from_location", ret := RetKind.int,
      sentinel := Sentinel.negOne, callee := "fz_page_number_from_location",
      calleeArgs := ["ctx", "doc", "loc"],
      params := [("fz_document *", "doc"), ("fz_location", "loc")] },
    { base := "new_pixmap_from_page", ret := RetKind.handle,
      sentinel := Sentinel.null, callee := "fz_new_pixmap_from_page",
      calleeArgs := ["ctx", "page", "mat", "cs", "alpha"],
      params := [("fz_page *", "page"), ("fz_matrix", "mat"),
                 ("fz_colorspace *", "cs"), ("int", "alpha")] },
    { base := "new_stext_page_from_page", ret := RetKind.handle,
      sentinel := Sentinel.null, callee := "fz_new_stext_page_from_page",
      calleeArgs := ["ctx", "page", "options"],
      params := [("fz_page *", "page"), ("fz_stext_options *", "options")] } ]

/-- The declarative instantiation list of `src/wrapper/mupdf.c`
(lines 11-14), transcribed field by field from the four `WRAP` lines. -/
def nestedWrapperOps : List OpDecl :=
  [ { base := "open_document", ret := RetKind.handle,
      sentinel := Sentinel.null, callee := "fz_open_document",
      calleeArgs := ["ctx", "path"],
      params := [("char *", "path")] },
    { base := "count_pages", ret := RetKind.int,
      sentinel := Sentinel.negOne, callee := "fz_count_pages",
      calleeArgs := ["ctx", "doc"],
      params := [("fz_document *", "doc")] },
    { base := "load_outline", ret := RetKind.handle,
      sentinel := Sentinel.null, callee := "fz_load_outline",
      calleeArgs := ["ctx", "doc"],
      params := [("fz_document *", "doc")] },
    { base := "load_page", ret := RetKind.handle,
      sentinel := Sentinel.null, callee := "fz_load_page",
      calleeArgs := ["ctx", "doc", "pageno"],
      params := [("fz_document *", "doc"), ("int", "pageno")] } ]

/-- The wrapper name the macro generates for an instantiation:
`mp_##name` prepends `mp_` to the macro's `name` argument. -/
def wrapperNameOf (o : OpDecl) : String := "mp_" ++ o.base

/-- The full parameter list the macro generates: the execution-context
handle `fz_context *ctx` first, then the instantiation's own parameters. -/
def fullParamsOf (o : OpDecl) : List (String × String) :=
  ("fz_context *", "ctx") :: o.params

/-- The operations table of the spec (section 4.1, "Operations to
support"), written from the spec's words alone: each row of the table as
(operation, result kind, sentinel), in the spec's row order.  The rows
are identified with the source operation names as follows: "open a
document from a path" is open_document; "open a document from an
in-memory/stream source with a declared format kind" is
open_document_with_stream; "load a page by zero-based index from a
document" is load_page; "load the outline/table-of-contents tree of a
document" is load_outline; "load the link annotations of a page" is
load_links; "count the pages in a document" is count_pages; "resolve a
page number from a structured location" is page_number_from_location;
"render a page to a pixel buffer given a transform, color space, and
alpha flag" is new_pixmap_from_page; "extract structured text from a
page given extraction options" is new_stext_page_from_page. -/
def specOpsTable : List (String × RetKind × Sentinel) :=
  [ ("open_document", RetKind.handle, Sentinel.null),
    ("open_document_with_stream", RetKind.handle, Sentinel.null),
    ("load_page", RetKind.handle, Sentinel.null),
    ("load_outline", RetKind.handle, Sentinel.null),
    ("load_links", RetKind.handle, Sentinel.null),
    ("count_pages", RetKind.int, Sentinel.negOne),
    ("page_number_from_location", RetKind.int, Sentinel.negOne),
    ("new_pixmap_from_page", RetKind.handle, Sentinel.null),
    ("new_stext_page_from_page", RetKind.handle, Sentinel.null) ]

/-- A fixed execution-context handle used in concrete evaluations. -/
def tCtx : FzContext := FzContext.mk 0

/-- A sample library error (one failure cause). -/
def eA : FzError := FzError.mk "cannot open document" 1

/-- A second, different sample library error (another failure cause). -/
def eB : FzError := FzError.mk "out of memory" 2

/-- A concrete deterministic model library over the state `Nat` used as a
call counter: every call completes normally with a fixed result and
advances the state by exactly one (its own single state change). -/
def okLib : MuPdfLib Nat where
  fz_open_document := fun _ path n =>
    (Except.ok (some (FzDocument.mk path.length)), n + 1)
  fz_open_document_with_stream := fun _ _ _ n =>
    (Except.ok (some (FzDocument.mk 2)), n + 1)
  fz_load_page := fun _ _ _ n => (Except.ok (some (FzPage.mk 9)), n + 1)
  fz_load_outline := fun _ _ n => (Except.ok (some (FzOutline.mk 3)), n + 1)
  fz_load_links := fun _ _ n => (Except.ok (some (FzLink.mk 4)), n + 1)
  fz_count_pages := fun _ _ n => (Except.ok 7, n + 1)
  fz_page_number_from_location := fun _ _ loc n => (Except.ok loc.page, n + 1)
  fz_new_pixmap_from_page := fun _ _ _ _ _ n =>
    (Except.ok (some (FzPixmap.mk 5)), n + 1)
  fz_new_stext_page_from_page := fun _ _ _ n =>
    (Except.ok (some (FzStextPage.mk 6)), n + 1)

/-- A concrete model library over the call-counter state `Nat` in which
every call signals the given failure `e` and advances the state by one. -/
def errLib (e : FzError) : MuPdfLib Nat where
  fz_open_document := fun _ _ n => (Except.error e, n + 1)
  fz_open_document_with_stream := fun _ _ _ n => (Except.error e, n + 1)
  fz_load_page := fun _ _ _ n => (Except.error e, n + 1)
  fz_load_outline := fun _ _ n => (Except.error e, n + 1)
  fz_load_links := fun _ _ n => (Except.error e, n + 1)
  fz_count_pages := fun _ _ n => (Except.error e, n + 1)
  fz_page_number_from_location := fun _ _ _ n => (Except.error e, n + 1)
  fz_new_pixmap_from_page := fun _ _ _ _ _ n => (Except.error e, n + 1)
  fz_new_stext_page_from_page := fun _ _ _ n => (Except.error e, n + 1)

/-- A concrete model library in which no call changes the library state
(every call completes normally and returns the state unchanged). -/
def pureLib : MuPdfLib Nat where
  fz_open_document := fun _ path n =>
    (Except.ok (some (FzDocument.mk path.length)), n)
  fz_open_document_with_stream := fun _ _ _ n =>
    (Except.ok (some (FzDocument.mk 2)), n)
  fz_load_page := fun _ _ _ n => (Except.ok (some (FzPage.mk 9)), n)
  fz_load_outline := fun _ _ n => (Except.ok (some (FzOutline.mk 3)), n)
  fz_load_links := fun _ _ n => (Except.ok (some (FzLink.mk 4)), n)
  fz_count_pages := fun _ _ n => (Except.ok 7, n)
  fz_page_number_from_location := fun _ _ loc n => (Except.ok loc.page, n)
  fz_new_pixmap_from_page := fun _ _ _ _ _ n =>
    (Except.ok (some (FzPixmap.mk 5)), n)
  fz_new_stext_page_from_page := fun _ _ _ n =>
    (Except.ok (some (FzStextPage.mk 6)), n)

/-- A concrete model library matching the spec scenario for page counting:
on a non-NULL document handle, counting pages completes normally with the
document's page count (its id, here); on a NULL handle the library signals
a failure. -/
def cntLib : MuPdfLib Nat :=
  { okLib with
    fz_count_pages := fun _ doc n =>
      (match doc with
       | some d => Except.ok (Int.ofNat d.id)
       | none => Except.error eA, n + 1) }

/-- If the guarded call completes normally, `wrap` returns the call's
result and state untouched. -/
theorem wrap_ok {σ α : Type} (fv : α) (c : σ → FzResult α × σ) (s : σ)
    (v : α) (s' : σ) (h : c s = (Except.ok v, s')) :
    wrap fv c s = (v, s') := by
  simp [wrap, h]

/-- If the guarded call signals a failure, `wrap` returns the sentinel
and the state the failed call left behind. -/
theorem wrap_err {σ α : Type} (fv : α) (c : σ → FzResult α × σ) (s : σ)
    (e : FzError) (s' : σ) (h : c s = (Except.error e, s')) :
    wrap fv c s = (fv, s') := by
  simp [wrap, h]

/-- On both paths, the state after `wrap` is exactly the state after the
single underlying call. -/
theorem wrap_state {σ α : Type} (fv : α) (c : σ → FzResult α × σ)
    (s : σ) : (wrap fv c s).2 = (c s).2 := by
  rcases h : c s with ⟨r, s'⟩
  cases r <;> simp [wrap, h]

/-- C1: For every adapted operation, if the underlying library call
completes normally on the given inputs, the adapter returns exactly the
value the underlying call produced, unchanged (pass-through). -/
theorem adapter_pass_through :
    ∀ (σ : Type) (lib : MuPdfLib σ) (ctx : FzContext) (s s' : σ),
      (∀ path v, lib.fz_open_document ctx path s = (Except.ok v, s') →
        mp_open_document lib ctx path s = (v, s')) ∧
      (∀ kind stream v,
        lib.fz_open_document_with_stream ctx kind stream s =
          (Except.ok v, s') →
        mp_open_document_with_stream lib ctx kind stream s = (v, s')) ∧
      (∀ doc pageno v,
        lib.fz_load_page ctx doc pageno s = (Except.ok v, s') →
        mp_load_page lib ctx doc pageno s = (v, s')) ∧
      (∀ doc v, lib.fz_load_outline ctx doc s = (Except.ok v, s') →
        mp_load_outline lib ctx doc s = (v, s')) ∧
      (∀ page v, lib.fz_load_links ctx page s = (Except.ok v, s') →
        mp_load_links lib ctx page s = (v, s')) ∧
      (∀ doc v, lib.fz_count_pages ctx doc s = (Except.ok v, s') →
        mp_count_pages lib ctx doc s = (v, s')) ∧
      (∀ doc loc v,
        lib.fz_page_number_from_location ctx doc loc s =
          (Except.ok v, s') →
        mp_page_number_from_location lib ctx doc loc s = (v, s')) ∧
      (∀ page mat cs alpha v,
        lib.fz_new_pixmap_from_page ctx page mat cs alpha s =
          (Except.ok v, s') →
        mp_new_pixmap_from_page lib ctx page mat cs alpha s = (v, s')) ∧
      (∀ page options v,
        lib.fz_new_stext_page_from_page ctx page options s =
          (Except.ok v, s') →
        mp_new_stext_page_from_page lib ctx page options s = (v, s')) := by
  intro σ lib ctx s s'
  exact ⟨fun _ _ h => wrap_ok _ _ _ _ _ h,
         fun _ _ _ h => wrap_ok _ _ _ _ _ h,
         fun _ _ _ h => wrap_ok _ _ _ _ _ h,
         fun _ _ h => wrap_ok _ _ _ _ _ h,
         fun _ _ h => wrap_ok _ _ _ _ _ h,
         fun _ _ h => wrap_ok _ _ _ _ _ h,
         fun _ _ _ h => wrap_ok _ _ _ _ _ h,
         fun _ _ _ _ _ h => wrap_ok _ _ _ _ _ h,
         fun _ _ _ h => wrap_ok _ _ _ _ _ h⟩

/-- Witness for C1: every adapted operation evaluated on the concrete
model library `okLib`, whose calls all complete normally, returns the
library's result unchanged. -/
theorem adapter_pass_through_witness :
    mp_open_document okLib tCtx "ab" 0 = (some (FzDocument.mk 2), 1) ∧
    mp_open_document_with_stream okLib tCtx "pdf" none 0 =
      (some (FzDocument.mk 2), 1) ∧
    mp_load_page okLib tCtx none 0 0 = (some (FzPage.mk 9), 1) ∧
    mp_load_outline okLib tCtx none 0 = (some (FzOutline.mk 3), 1) ∧
    mp_load_links okLib tCtx none 0 = (some (FzLink.mk 4), 1) ∧
    mp_count_pages okLib tCtx none 0 = (7, 1) ∧
    mp_page_number_from_location okLib tCtx none (FzLocation.mk 0 5) 0 =
      (5, 1) ∧
    mp_new_pixmap_from_page okLib tCtx none (FzMatrix.mk 0) none 1 0 =
      (some (FzPixmap.mk 5), 1) ∧
    mp_new_stext_page_from_page okLib tCtx none none 0 =
      (some (FzStextPage.mk 6), 1) := by
  have h := adapter_pass_through Nat okLib tCtx 0 1
  exact ⟨h.1 "ab" _ rfl,
         h.2.1 "pdf" none _ rfl,
         h.2.2.1 none 0 _ rfl,
         h.2.2.2.1 none _ rfl,
         h.2.2.2.2.1 none _ rfl,
         h.2.2.2.2.2.1 none _ rfl,
         h.2.2.2.2.2.2.1 none (FzLocation.mk 0 5) _ rfl,
         h.2.2.2.2.2.2.2.1 none (FzMatrix.mk 0) none 1 _ rfl,
         h.2.2.2.2.2.2.2.2 none none _ rfl⟩

/-- C2: For every adapted operation, if the underlying library call
signals a failure, the adapter catches it and returns the operation's
statically declared sentinel (NULL for handle-returning operations, -1
for integer-returning ones); the failure never propagates past the
adapter, which returns normally with the state the failed call left. -/
theorem adapter_failure_sentinel :
    ∀ (σ : Type) (lib : MuPdfLib σ) (ctx : FzContext) (s s' : σ)
      (e : FzError),
      (∀ path, lib.fz_open_document ctx path s = (Except.error e, s') →
        mp_open_document lib ctx path s = (none, s')) ∧
      (∀ kind stream,
        lib.fz_open_document_with_stream ctx kind stream s =
          (Except.error e, s') →
        mp_open_document_with_stream lib ctx kind stream s = (none, s')) ∧
      (∀ doc pageno,
        lib.fz_load_page ctx doc pageno s = (Except.error e, s') →
        mp_load_page lib ctx doc pageno s = (none, s')) ∧
      (∀ doc, lib.fz_load_outline ctx doc s = (Except.error e, s') →
        mp_load_outline lib ctx doc s = (none, s')) ∧
      (∀ page, lib.fz_load_links ctx page s = (Except.error e, s') →
        mp_load_links lib ctx page s = (none, s')) ∧
      (∀ doc, lib.fz_count_pages ctx doc s = (Except.error e, s') →
        mp_count_pages lib ctx doc s = (-1, s')) ∧
      (∀ doc loc,
        lib.fz_page_number_from_location ctx doc loc s =
          (Except.error e, s') →
        mp_page_number_from_location lib ctx doc loc s = (-1, s')) ∧
      (∀ page mat cs alpha,
        lib.fz_new_pixmap_from_page ctx page mat cs alpha s =
          (Except.error e, s') →
        mp_new_pixmap_from_page lib ctx page mat cs alpha s =
          (none, s')) ∧
      (∀ page options,
        lib.fz_new_stext_page_from_page ctx page options s =
          (Except.error e, s') →
        mp_new_stext_page_from_page lib ctx page options s =
          (none, s')) := by
  intro σ lib ctx s s' e
  exact ⟨fun _ h => wrap_err _ _ _ _ _ h,
         fun _ _ h => wrap_err _ _ _ _ _ h,
         fun _ _ h => wrap_err _ _ _ _ _ h,
         fun _ h => wrap_err _ _ _ _ _ h,
         fun _ h => wrap_err _ _ _ _ _ h,
         fun _ h => wrap_err _ _ _ _ _ h,
         fun _ _ h => wrap_err _ _ _ _ _ h,
         fun _ _ _ _ h => wrap_err _ _ _ _ _ h,
         fun _ _ h => wrap_err _ _ _ _ _ h⟩

/-- Witness for C2: every adapted operation evaluated on the concrete
model library `errLib eA`, whose calls all signal a failure, returns the
operation's declared sentinel through the normal return path. -/
theorem adapter_failure_sentinel_witness :
    mp_open_document (errLib eA) tCtx "ab" 0 = (none, 1) ∧
    mp_open_document_with_stream (errLib eA) tCtx "pdf" none 0 =
      (none, 1) ∧
    mp_load_page (errLib eA) tCtx none 0 0 = (none, 1) ∧
    mp_load_outline (errLib eA) tCtx none 0 = (none, 1) ∧
    mp_load_links (errLib eA) tCtx none 0 = (none, 1) ∧
    mp_count_pages (errLib eA) tCtx none 0 = (-1, 1) ∧
    mp_page_number_from_location (errLib eA) tCtx none
      (FzLocation.mk 0 5) 0 = (-1, 1) ∧
    mp_new_pixmap_from_page (errLib eA) tCtx none (FzMatrix.mk 0) none 1 0 =
      (none, 1) ∧
    mp_new_stext_page_from_page (errLib eA) tCtx none none 0 =
      (none, 1) := by
  have h := adapter_failure_sentinel Nat (errLib eA) tCtx 0 1 eA
  exact ⟨h.1 "ab" rfl,
         h.2.1 "pdf" none rfl,
         h.2.2.1 none 0 rfl,
         h.2.2.2.1 none rfl,
         h.2.2.2.2.1 none rfl,
         h.2.2.2.2.2.1 none rfl,
         h.2.2.2.2.2.2.1 none (FzLocation.mk 0 5) rfl,
         h.2.2.2.2.2.2.2.1 none (FzMatrix.mk 0) none 1 rfl,
         h.2.2.2.2.2.2.2.2 none none rfl⟩

/-- C3: The adapter layer is a single generic construct (`wrap`, the
`WRAP` macro body) instantiated over a declarative list of nine
operations; the instantiated operations are exactly those of the spec's
table, in order, with the stated return kind and sentinel, and each
generated function is literally `wrap` applied to its declared sentinel
and underlying call. -/
theorem adapter_layer_matches_spec_table :
    mupdfWrapperOps.map (fun o => (o.base, o.ret, o.sentinel)) =
      specOpsTable ∧
    mupdfWrapperOps.length = 9 ∧
    (∀ (σ : Type) (lib : MuPdfLib σ) ctx path,
      mp_open_document (σ := σ) lib ctx path =
        wrap none (lib.fz_open_document ctx path)) ∧
    (∀ (σ : Type) (lib : MuPdfLib σ) ctx kind stream,
      mp_open_document_with_stream (σ := σ) lib ctx kind stream =
        wrap none (lib.fz_open_document_with_stream ctx kind stream)) ∧
    (∀ (σ : Type) (lib : MuPdfLib σ) ctx doc pageno,
      mp_load_page (σ := σ) lib ctx doc pageno =
        wrap none (lib.fz_load_page ctx doc pageno)) ∧
    (∀ (σ : Type) (lib : MuPdfLib σ) ctx doc,
      mp_load_outline (σ := σ) lib ctx doc =
        wrap none (lib.fz_load_outline ctx doc)) ∧
    (∀ (σ : Type) (lib : MuPdfLib σ) ctx page,
      mp_load_links (σ := σ) lib ctx page =
        wrap none (lib.fz_load_links ctx page)) ∧
    (∀ (σ : Type) (lib : MuPdfLib σ) ctx doc,
      mp_count_pages (σ := σ) lib ctx doc =
        wrap (-1) (lib.fz_count_pages ctx doc)) ∧
    (∀ (σ : Type) (lib : MuPdfLib σ) ctx doc loc,
      mp_page_number_from_location (σ := σ) lib ctx doc loc =
        wrap (-1) (lib.fz_page_number_from_location ctx doc loc)) ∧
    (∀ (σ : Type) (lib : MuPdfLib σ) ctx page mat cs alpha,
      mp_new_pixmap_from_page (σ := σ) lib ctx page mat cs alpha =
        wrap none (lib.fz_new_pixmap_from_page ctx page mat cs alpha)) ∧
    (∀ (σ : Type) (lib : MuPdfLib σ) ctx page options,
      mp_new_stext_page_from_page (σ := σ) lib ctx page options =
        wrap none (lib.fz_new_stext_page_from_page ctx page options)) := by
  refine ⟨rfl, rfl, ?_, ?_, ?_, ?_, ?_, ?_, ?_, ?_, ?_⟩ <;>
    intros <;> rfl

/-- C4: For every adapted operation, the library's error detail (message,
category) is discarded: on a signalled failure the returned value is the
bare sentinel, and two different failure causes on otherwise identical
calls produce the identical return value. -/
theorem adapter_failure_cause_collapsed :
    ∀ (σ : Type) (lib₁ lib₂ : MuPdfLib σ) (ctx : FzContext)
      (s s₁ s₂ : σ) (e₁ e₂ : FzError),
      (∀ path,
        lib₁.fz_open_document ctx path s = (Except.error e₁, s₁) →
        lib₂.fz_open_document ctx path s = (Except.error e₂, s₂) →
        (mp_open_document lib₁ ctx path s).1 = none ∧
        (mp_open_document lib₁ ctx path s).1 =
          (mp_open_document lib₂ ctx path s).1) ∧
      (∀ kind stream,
        lib₁.fz_open_document_with_stream ctx kind stream s =
          (Except.error e₁, s₁) →
        lib₂.fz_open_document_with_stream ctx kind stream s =
          (Except.error e₂, s₂) →
        (mp_open_document_with_stream lib₁ ctx kind stream s).1 = none ∧
        (mp_open_document_with_stream lib₁ ctx kind stream s).1 =
          (mp_open_document_with_stream lib₂ ctx kind stream s).1) ∧
      (∀ doc pageno,
        lib₁.fz_load_page ctx doc pageno s = (Except.error e₁, s₁) →
        lib₂.fz_load_page ctx doc pageno s = (Except.error e₂, s₂) →
        (mp_load_page lib₁ ctx doc pageno s).1 = none ∧
        (mp_load_page lib₁ ctx doc pageno s).1 =
          (mp_load_page lib₂ ctx doc pageno s).1) ∧
      (∀ doc,
        lib₁.fz_load_outline ctx doc s = (Except.error e₁, s₁) →
        lib₂.fz_load_outline ctx doc s = (Except.error e₂, s₂) →
        (mp_load_outline lib₁ ctx doc s).1 = none ∧
        (mp_load_outline lib₁ ctx doc s).1 =
          (mp_load_outline lib₂ ctx doc s).1) ∧
      (∀ page,
        lib₁.fz_load_links ctx page s = (Except.error e₁, s₁) →
        lib₂.fz_load_links ctx page s = (Except.error e₂, s₂) →
        (mp_load_links lib₁ ctx page s).1 = none ∧
        (mp_load_links lib₁ ctx page s).1 =
          (mp_load_links lib₂ ctx page s).1) ∧
      (∀ doc,
        lib₁.fz_count_pages ctx doc s = (Except.error e₁, s₁) →
        lib₂.fz_count_pages ctx doc s = (Except.error e₂, s₂) →
        (mp_count_pages lib₁ ctx doc s).1 = -1 ∧
        (mp_count_pages lib₁ ctx doc s).1 =
          (mp_count_pages lib₂ ctx doc s).1) ∧
      (∀ doc loc,
        lib₁.fz_page_number_from_location ctx doc loc s =
          (Except.error e₁, s₁) →
        lib₂.fz_page_number_from_location ctx doc loc s =
          (Except.error e₂, s₂) →
        (mp_page_number_from_location lib₁ ctx doc loc s).1 = -1 ∧
        (mp_page_number_from_location lib₁ ctx doc loc s).1 =
          (mp_page_number_from_location lib₂ ctx doc loc s).1) ∧
      (∀ page mat cs alpha,
        lib₁.fz_new_pixmap_from_page ctx page mat cs alpha s =
          (Except.error e₁, s₁) →
        lib₂.fz_new_pixmap_from_page ctx page mat cs alpha s =
          (Except.error e₂, s₂) →
        (mp_new_pixmap_from_page lib₁ ctx page mat cs alpha s).1 = none ∧
        (mp_new_pixmap_from_page lib₁ ctx page mat cs alpha s).1 =
          (mp_new_pixmap_from_page lib₂ ctx page mat cs alpha s).1) ∧
      (∀ page options,
        lib₁.fz_new_stext_page_from_page ctx page options s =
          (Except.error e₁, s₁) →
        lib₂.fz_new_stext_page_from_page ctx page options s =
          (Except.error e₂, s₂) →
        (mp_new_stext_page_from_page lib₁ ctx page options s).1 = none ∧
        (mp_new_stext_page_from_page lib₁ ctx page options s).1 =
          (mp_new_stext_page_from_page lib₂ ctx page options s).1) := by
  intro σ lib₁ lib₂ ctx s s₁ s₂ e₁ e₂
  refine ⟨?_, ?_, ?_, ?_, ?_, ?_, ?_, ?_, ?_⟩ <;>
    · intros
      simp only [mp_open_document, mp_open_document_with_stream,
        mp_load_page, mp_load_outline, mp_load_links, mp_count_pages,
        mp_page_number_from_location, mp_new_pixmap_from_page,
        mp_new_stext_page_from_page]
      constructor
      case _ h₁ h₂ => rw [wrap_err _ _ _ _ _ h₁]
      case _ h₁ h₂ => rw [wrap_err _ _ _ _ _ h₁, wrap_err _ _ _ _ _ h₂]

/-- Witness for C4: the two concrete model libraries `errLib eA` and
`errLib eB` fail with different causes, yet every adapted operation
returns the identical bare sentinel on both. -/
theorem adapter_failure_cause_collapsed_witness :
    ((mp_open_document (errLib eA) tCtx "ab" 0).1 = none ∧
     (mp_open_document (errLib eA) tCtx "ab" 0).1 =
       (mp_open_document (errLib eB) tCtx "ab" 0).1) ∧
    ((mp_open_document_with_stream (errLib eA) tCtx "pdf" none 0).1 =
       none ∧
     (mp_open_document_with_stream (errLib eA) tCtx "pdf" none 0).1 =
       (mp_open_document_with_stream (errLib eB) tCtx "pdf" none 0).1) ∧
    ((mp_load_page (errLib eA) tCtx none 0 0).1 = none ∧
     (mp_load_page (errLib eA) tCtx none 0 0).1 =
       (mp_load_page (errLib eB) tCtx none 0 0).1) ∧
    ((mp_load_outline (errLib eA) tCtx none 0).1 = none ∧
     (mp_load_outline (errLib eA) tCtx none 0).1 =
       (mp_load_outline (errLib eB) tCtx none 0).1) ∧
    ((mp_load_links (errLib eA) tCtx none 0).1 = none ∧
     (mp_load_links (errLib eA) tCtx none 0).1 =
       (mp_load_links (errLib eB) tCtx none 0).1) ∧
    ((mp_count_pages (errLib eA) tCtx none 0).1 = -1 ∧
     (mp_count_pages (errLib eA) tCtx none 0).1 =
       (mp_count_pages (errLib eB) tCtx none 0).1) ∧
    ((mp_page_number_from_location (errLib eA) tCtx none
        (FzLocation.mk 0 5) 0).1 = -1 ∧
     (mp_page_number_from_location (errLib eA) tCtx none
        (FzLocation.mk 0 5) 0).1 =
       (mp_page_number_from_location (errLib eB) tCtx none
          (FzLocation.mk 0 5) 0).1) ∧
    ((mp_new_pixmap_from_page (errLib eA) tCtx none (FzMatrix.mk 0)
        none 1 0).1 = none ∧
     (mp_new_pixmap_from_page (errLib eA) tCtx none (FzMatrix.mk 0)
        none 1 0).1 =
       (mp_new_pixmap_from_page (errLib eB) tCtx none (FzMatrix.mk 0)
          none 1 0).1) ∧
    ((mp_new_stext_page_from_page (errLib eA) tCtx none none 0).1 =
       none ∧
     (mp_new_stext_page_from_page (errLib eA) tCtx none none 0).1 =
       (mp_new_stext_page_from_page (errLib eB) tCtx none none 0).1) := by
  have h := adapter_failure_cause_collapsed Nat (errLib eA) (errLib eB)
    tCtx 0 1 1 eA eB
  exact ⟨h.1 "ab" rfl rfl,
         h.2.1 "pdf" none rfl rfl,
         h.2.2.1 none 0 rfl rfl,
         h.2.2.2.1 none rfl rfl,
         h.2.2.2.2.1 none rfl rfl,
         h.2.2.2.2.2.1 none rfl rfl,
         h.2.2.2.2.2.2.1 none (FzLocation.mk 0 5) rfl rfl,
         h.2.2.2.2.2.2.2.1 none (FzMatrix.mk 0) none 1 rfl rfl,
         h.2.2.2.2.2.2.2.2 none none rfl rfl⟩

/-- C5: counting pages through the adapter on a validly-opened document
handle — one on which the library's count call completes normally,
returning the document's true page count, which is never negative —
yields exactly that count (an integer ≥ 0); counting pages on a NULL (or
otherwise invalid) document handle, on which the library signals a
failure, yields -1.  The behaviour of the external library itself is
expressed as the hypotheses, per the spec's opaque-collaborator model. -/
theorem mp_count_pages_contract :
    ∀ (σ : Type) (lib : MuPdfLib σ) (ctx : FzContext) (s s' : σ),
      (∀ (doc : DocHandle) (n : Int), 0 ≤ n →
        lib.fz_count_pages ctx doc s = (Except.ok n, s') →
        mp_count_pages lib ctx doc s = (n, s') ∧
        0 ≤ (mp_count_pages lib ctx doc s).1) ∧
      (∀ (doc : DocHandle) (e : FzError), doc = none →
        lib.fz_count_pages ctx doc s = (Except.error e, s') →
        mp_count_pages lib ctx doc s = (-1, s')) := by
  intro σ lib ctx s s'
  constructor
  · intro doc n hn h
    have a : mp_count_pages lib ctx doc s = (n, s') :=
      wrap_ok _ _ _ _ _ h
    exact ⟨a, by rw [a]; exact hn⟩
  · intro doc e _ h
    exact wrap_err _ _ _ _ _ h

/-- Witness for C5 on the concrete model library `cntLib`: a non-NULL
document handle with four pages counts to 4 (≥ 0), and the NULL handle,
on which the model library signals a failure, counts to -1. -/
theorem mp_count_pages_contract_witness :
    (mp_count_pages cntLib tCtx (some (FzDocument.mk 4)) 0 = (4, 1) ∧
     0 ≤ (mp_count_pages cntLib tCtx (some (FzDocument.mk 4)) 0).1) ∧
    mp_count_pages cntLib tCtx none 0 = (-1, 1) := by
  have h := mp_count_pages_contract Nat cntLib tCtx 0 1
  exact ⟨h.1 (some (FzDocument.mk 4)) 4 (by decide) rfl,
         h.2 none eA rfl rfl⟩

/-- C6: the two files are near-duplicates: the nested file's `WRAP` macro
has the same semantics as the top-level one, each of the four operations
defined in both files is extensionally equal across the two files (same
signature, same underlying call, same sentinel, same behaviour on every
input), and the nested file's declarative operation set is contained in
the top-level file's. -/
theorem nested_wrapper_duplicates_top :
    (∀ (σ α : Type) (fv : α) (c : σ → FzResult α × σ) (s : σ),
      Nested.wrap fv c s = wrap fv c s) ∧
    (∀ (σ : Type) (lib : MuPdfLib σ) ctx path (s : σ),
      Nested.mp_open_document lib ctx path s =
        mp_open_document lib ctx path s) ∧
    (∀ (σ : Type) (lib : MuPdfLib σ) ctx doc (s : σ),
      Nested.mp_count_pages lib ctx doc s =
        mp_count_pages lib ctx doc s) ∧
    (∀ (σ : Type) (lib : MuPdfLib σ) ctx doc (s : σ),
      Nested.mp_load_outline lib ctx doc s =
        mp_load_outline lib ctx doc s) ∧
    (∀ (σ : Type) (lib : MuPdfLib σ) ctx doc pageno (s : σ),
      Nested.mp_load_page lib ctx doc pageno s =
        mp_load_page lib ctx doc pageno s) ∧
    (∀ o, o ∈ nestedWrapperOps → o ∈ mupdfWrapperOps) := by
  refine ⟨fun _ _ _ _ _ => rfl, fun _ _ _ _ _ => rfl,
          fun _ _ _ _ _ => rfl, fun _ _ _ _ _ => rfl,
          fun _ _ _ _ _ _ => rfl, ?_⟩
  decide

/-- Witness for C6: the nested file's first declared operation is in the
top-level file's operation list. -/
theorem nested_wrapper_duplicates_top_witness :
    ({ base := "open_document", ret := RetKind.handle,
       sentinel := Sentinel.null, callee := "fz_open_document",
       calleeArgs := ["ctx", "path"],
       params := [("char *", "path")] } : OpDecl) ∈ mupdfWrapperOps :=
  nested_wrapper_duplicates_top.2.2.2.2.2 _ (by decide)

/-- C7: every adapted operation's signature mirrors the underlying
library call's: the generated wrapper name is `mp_` plus the shared base
name, the underlying call is `fz_` plus the same base name, the first
parameter is the execution-context handle `fz_context *ctx`, the
remaining parameters are forwarded to the underlying call in order right
after `ctx`, and the return kind is an opaque handle or an integer. -/
theorem adapter_signatures_mirror_library :
    ∀ o, o ∈ mupdfWrapperOps →
      wrapperNameOf o = "mp_" ++ o.base ∧
      o.callee = "fz_" ++ o.base ∧
      (fullParamsOf o).head? = some ("fz_context *", "ctx") ∧
      o.calleeArgs = "ctx" :: o.params.map Prod.snd ∧
      (o.ret = RetKind.handle ∨ o.ret = RetKind.int) := by
  intro o ho
  fin_cases ho <;> exact ⟨rfl, rfl, rfl, rfl, by decide⟩

/-- Witness for C7: the claim applied to the first declared operation of
the top-level wrapper file. -/
theorem adapter_signatures_mirror_library_witness :
    wrapperNameOf
        { base := "open_document", ret := RetKind.handle,
          sentinel := Sentinel.null, callee := "fz_open_document",
          calleeArgs := ["ctx", "path"],
          params := [("char *", "path")] } = "mp_" ++ "open_document" ∧
    ("fz_open_document" = "fz_" ++ "open_document") ∧
    (fullParamsOf
        { base := "open_document", ret := RetKind.handle,
          sentinel := Sentinel.null, callee := "fz_open_document",
          calleeArgs := ["ctx", "path"],
          params := [("char *", "path")] }).head? =
      some ("fz_context *", "ctx") ∧
    (["ctx", "path"] =
      "ctx" :: [(("char *" : String), ("path" : String))].map Prod.snd) ∧
    (RetKind.handle = RetKind.handle ∨ RetKind.handle = RetKind.int) :=
  adapter_signatures_mirror_library _ (by decide)

/-- C8: for every adapted operation, the adapter forwards its arguments
unchanged to a single underlying call and adds no state change of its
own: the generated function is exactly `wrap` of the underlying call on
the forwarded arguments, the state after the adapted call equals the
state after the underlying call, and on the instrumented model library
`okLib`, whose every call bumps a call counter by one, the adapted call
bumps the counter by exactly one. -/
theorem adapter_frame :
    (∀ (σ : Type) (lib : MuPdfLib σ) ctx path (s : σ),
      mp_open_document lib ctx path s =
        wrap none (lib.fz_open_document ctx path) s ∧
      (mp_open_document lib ctx path s).2 =
        (lib.fz_open_document ctx path s).2) ∧
    (∀ (σ : Type) (lib : MuPdfLib σ) ctx kind stream (s : σ),
      mp_open_document_with_stream lib ctx kind stream s =
        wrap none (lib.fz_open_document_with_stream ctx kind stream) s ∧
      (mp_open_document_with_stream lib ctx kind stream s).2 =
        (lib.fz_open_document_with_stream ctx kind stream s).2) ∧
    (∀ (σ : Type) (lib : MuPdfLib σ) ctx doc pageno (s : σ),
      mp_load_page lib ctx doc pageno s =
        wrap none (lib.fz_load_page ctx doc pageno) s ∧
      (mp_load_page lib ctx doc pageno s).2 =
        (lib.fz_load_page ctx doc pageno s).2) ∧
    (∀ (σ : Type) (lib : MuPdfLib σ) ctx doc (s : σ),
      mp_load_outline lib ctx doc s =
        wrap none (lib.fz_load_outline ctx doc) s ∧
      (mp_load_outline lib ctx doc s).2 =
        (lib.fz_load_outline ctx doc s).2) ∧
    (∀ (σ : Type) (lib : MuPdfLib σ) ctx page (s : σ),
      mp_load_links lib ctx page s =
        wrap none (lib.fz_load_links ctx page) s ∧
      (mp_load_links lib ctx page s).2 =
        (lib.fz_load_links ctx page s).2) ∧
    (∀ (σ : Type) (lib : MuPdfLib σ) ctx doc (s : σ),
      mp_count_pages lib ctx doc s =
        wrap (-1) (lib.fz_count_pages ctx doc) s ∧
      (mp_count_pages lib ctx doc s).2 =
        (lib.fz_count_pages ctx doc s).2) ∧
    (∀ (σ : Type) (lib : MuPdfLib σ) ctx doc loc (s : σ),
      mp_page_number_from_location lib ctx doc loc s =
        wrap (-1) (lib.fz_page_number_from_location ctx doc loc) s ∧
      (mp_page_number_from_location lib ctx doc loc s).2 =
        (lib.fz_page_number_from_location ctx doc loc s).2) ∧
    (∀ (σ : Type) (lib : MuPdfLib σ) ctx page mat cs alpha (s : σ),
      mp_new_pixmap_from_page lib ctx page mat cs alpha s =
        wrap none (lib.fz_new_pixmap_from_page ctx page mat cs alpha) s ∧
      (mp_new_pixmap_from_page lib ctx page mat cs alpha s).2 =
        (lib.fz_new_pixmap_from_page ctx page mat cs alpha s).2) ∧
    (∀ (σ : Type) (lib : MuPdfLib σ) ctx page options (s : σ),
      mp_new_stext_page_from_page lib ctx page options s =
        wrap none (lib.fz_new_stext_page_from_page ctx page options) s ∧
      (mp_new_stext_page_from_page lib ctx page options s).2 =
        (lib.fz_new_stext_page_from_page ctx page options s).2) ∧
    (∀ (n : Nat) ctx path,
      (mp_open_document okLib ctx path n).2 = n + 1) ∧
    (∀ (n : Nat) ctx kind stream,
      (mp_open_document_with_stream okLib ctx kind stream n).2 = n + 1) ∧
    (∀ (n : Nat) ctx doc pageno,
      (mp_load_page okLib ctx doc pageno n).2 = n + 1) ∧
    (∀ (n : Nat) ctx doc,
      (mp_load_outline okLib ctx doc n).2 = n + 1) ∧
    (∀ (n : Nat) ctx page,
      (mp_load_links okLib ctx page n).2 = n + 1) ∧
    (∀ (n : Nat) ctx doc,
      (mp_count_pages okLib ctx doc n).2 = n + 1) ∧
    (∀ (n : Nat) ctx doc loc,
      (mp_page_number_from_location okLib ctx doc loc n).2 = n + 1) ∧
    (∀ (n : Nat) ctx page mat cs alpha,
      (mp_new_pixmap_from_page okLib ctx page mat cs alpha n).2 =
        n + 1) ∧
    (∀ (n : Nat) ctx page options,
      (mp_new_stext_page_from_page okLib ctx page options n).2 =
        n + 1) := by
  refine ⟨fun _ _ _ _ _ => ⟨rfl, wrap_state _ _ _⟩,
          fun _ _ _ _ _ _ => ⟨rfl, wrap_state _ _ _⟩,
          fun _ _ _ _ _ _ => ⟨rfl, wrap_state _ _ _⟩,
          fun _ _ _ _ _ => ⟨rfl, wrap_state _ _ _⟩,
          fun _ _ _ _ _ => ⟨rfl, wrap_state _ _ _⟩,
          fun _ _ _ _ _ => ⟨rfl, wrap_state _ _ _⟩,
          fun _ _ _ _ _ _ => ⟨rfl, wrap_state _ _ _⟩,
          fun _ _ _ _ _ _ _ _ => ⟨rfl, wrap_state _ _ _⟩,
          fun _ _ _ _ _ _ => ⟨rfl, wrap_state _ _ _⟩,
          fun _ _ _ => wrap_state _ _ _,
          fun _ _ _ _ => wrap_state _ _ _,
          fun _ _ _ _ => wrap_state _ _ _,
          fun _ _ _ => wrap_state _ _ _,
          fun _ _ _ => wrap_state _ _ _,
          fun _ _ _ => wrap_state _ _ _,
          fun _ _ _ _ => wrap_state _ _ _,
          fun _ _ _ _ _ _ => wrap_state _ _ _,
          fun _ _ _ _ => wrap_state _ _ _⟩

/-- C9: for every adapted operation, if the underlying call does not
change the library state on the given inputs (so there is no intervening
state change between the two invocations, and the call — a function in
this model — is deterministic), calling the adapted operation a second
time from the state the first call left yields the same result as the
first call. -/
theorem adapter_idempotent :
    ∀ (σ : Type) (lib : MuPdfLib σ) (ctx : FzContext) (s : σ),
      (∀ path, (lib.fz_open_document ctx path s).2 = s →
        mp_open_document lib ctx path
            ((mp_open_document lib ctx path s).2) =
          mp_open_document lib ctx path s) ∧
      (∀ kind stream,
        (lib.fz_open_document_with_stream ctx kind stream s).2 = s →
        mp_open_document_with_stream lib ctx kind stream
            ((mp_open_document_with_stream lib ctx kind stream s).2) =
          mp_open_document_with_stream lib ctx kind stream s) ∧
      (∀ doc pageno, (lib.fz_load_page ctx doc pageno s).2 = s →
        mp_load_page lib ctx doc pageno
            ((mp_load_page lib ctx doc pageno s).2) =
          mp_load_page lib ctx doc pageno s) ∧
      (∀ doc, (lib.fz_load_outline ctx doc s).2 = s →
        mp_load_outline lib ctx doc
            ((mp_load_outline lib ctx doc s).2) =
          mp_load_outline lib ctx doc s) ∧
      (∀ page, (lib.fz_load_links ctx page s).2 = s →
        mp_load_links lib ctx page ((mp_load_links lib ctx page s).2) =
          mp_load_links lib ctx page s) ∧
      (∀ doc, (lib.fz_count_pages ctx doc s).2 = s →
        mp_count_pages lib ctx doc ((mp_count_pages lib ctx doc s).2) =
          mp_count_pages lib ctx doc s) ∧
      (∀ doc loc,
        (lib.fz_page_number_from_location ctx doc loc s).2 = s →
        mp_page_number_from_location lib ctx doc loc
            ((mp_page_number_from_location lib ctx doc loc s).2) =
          mp_page_number_from_location lib ctx doc loc s) ∧
      (∀ page mat cs alpha,
        (lib.fz_new_pixmap_from_page ctx page mat cs alpha s).2 = s →
        mp_new_pixmap_from_page lib ctx page mat cs alpha
            ((mp_new_pixmap_from_page lib ctx page mat cs alpha s).2) =
          mp_new_pixmap_from_page lib ctx page mat cs alpha s) ∧
      (∀ page options,
        (lib.fz_new_stext_page_from_page ctx page options s).2 = s →
        mp_new_stext_page_from_page lib ctx page options
            ((mp_new_stext_page_from_page lib ctx page options s).2) =
          mp_new_stext_page_from_page lib ctx page options s) := by
  intro σ lib ctx s
  refine ⟨?_, ?_, ?_, ?_, ?_, ?_, ?_, ?_, ?_⟩ <;>
    · intros
      simp only [mp_open_document, mp_open_document_with_stream,
        mp_load_page, mp_load_outline, mp_load_links, mp_count_pages,
        mp_page_number_from_location, mp_new_pixmap_from_page,
        mp_new_stext_page_from_page]
      case _ h =>
        rw [(wrap_state _ _ _).trans h]

/-- Witness for C9: on the state-preserving concrete model library
`pureLib`, every adapted operation called a second time from the state
the first call left yields the first call's result. -/
theorem adapter_idempotent_witness :
    mp_open_document pureLib tCtx "ab"
        ((mp_open_document pureLib tCtx "ab" 0).2) =
      mp_open_document pureLib tCtx "ab" 0 ∧
    mp_open_document_with_stream pureLib tCtx "pdf" none
        ((mp_open_document_with_stream pureLib tCtx "pdf" none 0).2) =
      mp_open_document_with_stream pureLib tCtx "pdf" none 0 ∧
    mp_load_page pureLib tCtx none 0
        ((mp_load_page pureLib tCtx none 0 0).2) =
      mp_load_page pureLib tCtx none 0 0 ∧
    mp_load_outline pureLib tCtx none
        ((mp_load_outline pureLib tCtx none 0).2) =
      mp_load_outline pureLib tCtx none 0 ∧
    mp_load_links pureLib tCtx none
        ((mp_load_links pureLib tCtx none 0).2) =
      mp_load_links pureLib tCtx none 0 ∧
    mp_count_pages pureLib tCtx none
        ((mp_count_pages pureLib tCtx none 0).2) =
      mp_count_pages pureLib tCtx none 0 ∧
    mp_page_number_from_location pureLib tCtx none (FzLocation.mk 0 5)
        ((mp_page_number_from_location pureLib tCtx none
            (FzLocation.mk 0 5) 0).2) =
      mp_page_number_from_location pureLib tCtx none
        (FzLocation.mk 0 5) 0 ∧
    mp_new_pixmap_from_page pureLib tCtx none (FzMatrix.mk 0) none 1
        ((mp_new_pixmap_from_page pureLib tCtx none (FzMatrix.mk 0)
            none 1 0).2) =
      mp_new_pixmap_from_page pureLib tCtx none (FzMatrix.mk 0) none 1 0 ∧
    mp_new_stext_page_from_page pureLib tCtx none none
        ((mp_new_stext_page_from_page pureLib tCtx none none 0).2) =
      mp_new_stext_page_from_page pureLib tCtx none none 0 := by
  have h := adapter_idempotent Nat pureLib tCtx 0
  exact ⟨h.1 "ab" rfl,
         h.2.1 "pdf" none rfl,
         h.2.2.1 none 0 rfl,
         h.2.2.2.1 none rfl,
         h.2.2.2.2.1 none rfl,
         h.2.2.2.2.2.1 none rfl,
         h.2.2.2.2.2.2.1 none (FzLocation.mk 0 5) rfl,
         h.2.2.2.2.2.2.2.1 none (FzMatrix.mk 0) none 1 rfl,
         h.2.2.2.2.2.2.2.2 none none rfl⟩

/-- C10: in the macro body, the local `ret` variable is assigned on both
the guarded path and the catch path before the single `return ret`
statement, so every invocation that returns at all returns a defined
value of the declared return type (never the uninitialized local), and
that value and the final state agree with the `wrap` semantics. -/
theorem wrapRet_always_defined :
    ∀ (σ α : Type) (fv : α) (c : σ → FzResult α × σ) (s : σ),
      ((wrapRet fv c s).1).isSome = true ∧
      (wrapRet fv c s).1 = some ((wrap fv c s).1) ∧
      (wrapRet fv c s).2 = (wrap fv c s).2 := by
  intro σ α fv c s
  rcases h : c s with ⟨r, s'⟩
  cases r <;> simp [wrapRet, wrap, assignRet, h]
